import Mathlib

/-!
# AudioPerfLab: `Base/Config.hpp`

A shallow embedding of the configuration header of AudioPerfLab. The header
declares seven `constexpr auto` constants and nothing else:

* three `int` literals and one further `int` literal (thread counts, cache line
  size, preferred buffer size), embedded as `Int`;
* one `double` literal `0.5`, which is exactly representable in binary floating
  point and is embedded as the rational number it denotes;
* two `std::chrono` durations, embedded as a tick count tagged with the tick
  period `num / den` seconds, as `std::chrono::duration<Rep, std::ratio<num, den>>`.
-/

namespace AudioPerfLab

/-! ## `std::chrono` durations -/

/-- Embedding of `std::chrono::duration<Rep, std::ratio<num, den>>`: a signed
tick count whose tick lasts `num / den` seconds. -/
structure Duration (num den : Nat) where
  count : Int
  deriving DecidableEq, Repr

/-- Embedding of `std::chrono::milliseconds`, ticks of `1/1000` s. -/
abbrev Milliseconds := Duration 1 1000

/-- Embedding of `std::chrono::microseconds`, ticks of `1/1000000` s. -/
abbrev Microseconds := Duration 1 1000000

/-- Embedding of `std::chrono::duration_cast`: the tick count is rescaled by the
quotient of the two periods, `(num / den) / (num2 / den2)`, truncating toward
zero as C++ integer division does. -/
def durationCast {num den : Nat} (num2 den2 : Nat) (d : Duration num den) :
    Duration num2 den2 :=
  ⟨Int.tdiv (d.count * ((num : Int) * (den2 : Int))) ((den : Int) * (num2 : Int))⟩

/-- Conversion of a millisecond duration to the common type that C++ picks when
it is compared with a microsecond duration (`std::common_type` of the two is
`std::chrono::microseconds`). -/
def toMicroseconds (d : Milliseconds) : Microseconds :=
  durationCast 1 1000000 d

/-! ## The constants of `Config.hpp`, in source order -/

/-- Source: `constexpr auto kDefaultNumBusyThreads = 0;` (type `int`). -/
def kDefaultNumBusyThreads : Int := 0

/-- Source: `constexpr auto kDefaultBusyThreadPeriod = std::chrono::milliseconds{35};`. -/
def kDefaultBusyThreadPeriod : Milliseconds := ⟨35⟩

/-- Source: `constexpr auto kDefaultBusyThreadCpuUsage = 0.5;` (type `double`).
The literal is a dyadic fraction, so the `double` holds exactly `1/2`. -/
def kDefaultBusyThreadCpuUsage : Rat := 1 / 2

/-- Source: `constexpr auto kDefaultNumWorkerThreads = 1;` (type `int`). -/
def kDefaultNumWorkerThreads : Int := 1

/-- Source: `constexpr auto kCacheLineSize = 128;` (type `int`). -/
def kCacheLineSize : Int := 128

/-- Source: `constexpr auto kDefaultPreferredBufferSize = 128;` (type `int`). -/
def kDefaultPreferredBufferSize : Int := 128

/-- Source: `constexpr auto kRealtimeThreadQuantum = std::chrono::microseconds{500};`. -/
def kRealtimeThreadQuantum : Microseconds := ⟨500⟩

/-! ## Properties -/

/-- C1: the default busy-thread CPU usage, read as the exact rational `1/2`
its literal `0.5` denotes, is a fraction in the closed interval `[0, 1]`. -/
theorem kDefaultBusyThreadCpuUsage_mem_unit_interval :
    kDefaultBusyThreadCpuUsage = 1 / 2 ∧
      0 ≤ kDefaultBusyThreadCpuUsage ∧ kDefaultBusyThreadCpuUsage ≤ 1 := by
  unfold kDefaultBusyThreadCpuUsage
  norm_num

/-- C2: the busy-thread period is a strictly positive count of milliseconds
(35 ms) and the real-time thread quantum is a strictly positive count of
microseconds (500 us). -/
theorem period_and_quantum_pos :
    (kDefaultBusyThreadPeriod : Milliseconds).count = 35 ∧
      0 < (kDefaultBusyThreadPeriod : Milliseconds).count ∧
      (kRealtimeThreadQuantum : Microseconds).count = 500 ∧
      0 < (kRealtimeThreadQuantum : Microseconds).count := by
  refine ⟨rfl, ?_, rfl, ?_⟩
  · show (0 : Int) < 35
    decide
  · show (0 : Int) < 500
    decide

/-- C3: both default thread counts are integer-typed constants and both are
non-negative. -/
theorem thread_counts_nonneg :
    0 ≤ (kDefaultNumBusyThreads : Int) ∧ 0 ≤ (kDefaultNumWorkerThreads : Int) := by
  constructor
  · show (0 : Int) ≤ 0
    decide
  · show (0 : Int) ≤ 1
    decide

/-- C4: each of the seven configuration constants is a non-negative quantity of
its unit; in particular the two byte-sized constants are non-negative, both
being 128. -/
theorem all_constants_nonneg :
    0 ≤ kDefaultNumBusyThreads ∧
      0 ≤ kDefaultBusyThreadPeriod.count ∧
      0 ≤ kDefaultBusyThreadCpuUsage ∧
      0 ≤ kDefaultNumWorkerThreads ∧
      (kCacheLineSize = 128 ∧ 0 ≤ kCacheLineSize) ∧
      (kDefaultPreferredBufferSize = 128 ∧ 0 ≤ kDefaultPreferredBufferSize) ∧
      0 ≤ kRealtimeThreadQuantum.count := by
  refine ⟨?_, ?_, ?_, ?_, ⟨rfl, ?_⟩, ⟨rfl, ?_⟩, ?_⟩
  · show (0 : Int) ≤ 0
    decide
  · show (0 : Int) ≤ 35
    decide
  · unfold kDefaultBusyThreadCpuUsage
    norm_num
  · show (0 : Int) ≤ 1
    decide
  · show (0 : Int) ≤ 128
    decide
  · show (0 : Int) ≤ 128
    decide
  · show (0 : Int) ≤ 500
    decide

/-- C5: the cache line size is a positive power of two, `128 = 2 ^ 7`, and so
is the default preferred buffer size. -/
theorem sizes_are_powers_of_two :
    (0 < kCacheLineSize ∧ kCacheLineSize = 2 ^ 7 ∧
        ∃ k : Nat, kCacheLineSize = 2 ^ k) ∧
      (0 < kDefaultPreferredBufferSize ∧ kDefaultPreferredBufferSize = 2 ^ 7 ∧
        ∃ k : Nat, kDefaultPreferredBufferSize = 2 ^ k) := by
  have h : (128 : Int) = 2 ^ 7 := by norm_num
  have hpos : (0 : Int) < 128 := by decide
  exact ⟨⟨hpos, h, 7, h⟩, ⟨hpos, h, 7, h⟩⟩

/-- C6: the default configuration has busy threads disabled (count zero) and a
non-empty worker pool (at least one worker thread). -/
theorem default_busy_disabled_worker_nonempty :
    kDefaultNumBusyThreads = 0 ∧ 1 ≤ kDefaultNumWorkerThreads := by
  refine ⟨rfl, ?_⟩
  show (1 : Int) ≤ 1
  decide

/-- C7: converted to microseconds, the default busy-thread period is
`35 * 1000 = 35000` ticks, and the real-time thread quantum (500 ticks of the
same unit) is strictly shorter. -/
theorem quantum_lt_period :
    (toMicroseconds kDefaultBusyThreadPeriod).count = 35 * 1000 ∧
      (toMicroseconds kDefaultBusyThreadPeriod).count = 35000 ∧
      kRealtimeThreadQuantum.count < (toMicroseconds kDefaultBusyThreadPeriod).count := by
  have h : (toMicroseconds kDefaultBusyThreadPeriod).count = 35000 := by
    show Int.tdiv (35 * (((1 : Nat) : Int) * ((1000000 : Nat) : Int)))
      (((1000 : Nat) : Int) * ((1 : Nat) : Int)) = 35000
    decide
  refine ⟨?_, h, ?_⟩
  · rw [h]
    norm_num
  · rw [h]
    show (500 : Int) < 35000
    decide

end AudioPerfLab
